import Mathlib

/-!
Shallow embedding of the form-state controller of the `react-hooks-forms`
lesson repository: the generic name-keyed form-state update (`handleChange`),
the bounded numeric-field update (`handleNumberChange` in
`src/components/Form.js`), and the submission handler (`handleSubmit`).
JavaScript numbers that can be `NaN` are modelled as `Option Int`
(`none` = `NaN`); all `NaN` comparisons are `false`, as in JavaScript.
-/

namespace ReactHooksForms

/-! ## JavaScript `parseInt`

Model of the JavaScript builtin `parseInt(string)` with no radix argument:
skip leading whitespace, read an optional sign, treat a `0x`/`0X` prefix as
hexadecimal, then read the longest prefix of digits of the radix; if that
prefix is empty the result is `NaN` (`none`). -/

def jsWhitespace (c : Char) : Bool :=
  c = ' ' || c = '\t' || c = '\n' || c = '\r' || c = '\x0b' || c = '\x0c'

def digitVal (c : Char) : Option Nat :=
  if '0' ≤ c ∧ c ≤ '9' then some (c.toNat - '0'.toNat)
  else if 'a' ≤ c ∧ c ≤ 'f' then some (c.toNat - 'a'.toNat + 10)
  else if 'A' ≤ c ∧ c ≤ 'F' then some (c.toNat - 'A'.toNat + 10)
  else none

def isRadixDigit (radix : Nat) (c : Char) : Bool :=
  match digitVal c with
  | some d => d < radix
  | none => false

def digitsToNat (radix : Nat) (cs : List Char) : Nat :=
  cs.foldl (fun acc c => acc * radix + (digitVal c).getD 0) 0

def parseIntChars (cs : List Char) : Option Int :=
  let cs₁ := cs.dropWhile jsWhitespace
  let signed : Int × List Char :=
    match cs₁ with
    | '-' :: rest => (-1, rest)
    | '+' :: rest => (1, rest)
    | _ => (1, cs₁)
  let radixed : Nat × List Char :=
    match signed.2 with
    | '0' :: 'x' :: rest => (16, rest)
    | '0' :: 'X' :: rest => (16, rest)
    | _ => (10, signed.2)
  let ds := radixed.2.takeWhile (isRadixDigit radixed.1)
  if ds.isEmpty then none
  else some (signed.1 * (digitsToNat radixed.1 ds : Int))

def parseInt (s : String) : Option Int := parseIntChars s.data

/-- JavaScript template-literal rendering of a number: `NaN` prints as
`"NaN"`, integers in decimal. -/
def jsNumToString : Option Int → String
  | none => "NaN"
  | some n => toString n

/-! ## The bounded numeric field (`src/components/Form.js`)

```js
const [number, setNumber] = useState(0)
const [isInvalidNumber, setIsInvalidNumber] = useState(null)

function handleNumberChange(e) {
  const newNumber = parseInt(e.target.value)
  if (newNumber >= 0 && newNumber <= 5) {
    setNumber(newNumber)
    setIsInvalidNumber(null)
  } else {
    setIsInvalidNumber(`${newNumber} is not a valid number!`)
  }
}
```
-/

structure NumberState where
  number : Int
  isInvalidNumber : Option String
deriving Repr, DecidableEq

def initialNumberState : NumberState := { number := 0, isInvalidNumber := none }

/-- The guard `newNumber >= 0 && newNumber <= 5` of the source; both
comparisons are `false` when `newNumber` is `NaN`. -/
def rangeCheck : Option Int → Bool
  | none => false
  | some n => decide (0 ≤ n) && decide (n ≤ 5)

/-- The rejection message `` `${newNumber} is not a valid number!` ``. -/
def invalidMessage (x : Option Int) : String :=
  jsNumToString x ++ " is not a valid number!"

def handleNumberChange (v : String) (s : NumberState) : NumberState :=
  match parseInt v with
  | some newNumber =>
    if 0 ≤ newNumber ∧ newNumber ≤ 5 then
      { number := newNumber, isInvalidNumber := none }
    else
      { s with isInvalidNumber := some (invalidMessage (some newNumber)) }
  | none =>
    -- parseInt returned NaN: `NaN >= 0` is false in JS, so the guard fails
    { s with isInvalidNumber := some (invalidMessage none) }

/-- The numeric field after a sequence of input events, starting from the
initial state `number = 0`, `isInvalidNumber = null`. -/
def runNumber (vs : List String) : NumberState :=
  vs.foldl (fun s v => handleNumberChange v s) initialNumberState

/-! ## Generic keyed form state (`handleChange`, README final version)

```js
const [formData, setFormData] = useState({
  firstName: "John",
  lastName: "Henry",
  admin: false,
});

function handleChange(event) {
  const name = event.target.name;
  let value = event.target.value;
  if (event.target.type === "checkbox") {
    value = event.target.checked;
  }
  setFormData({
    ...formData,
    [name]: value,
  });
}
```

`formData` is a JS object: an ordered mapping from field name to value,
modelled as an association list. The spread `{...formData, [name]: value}`
keeps every existing entry in place, overwrites the entry for `name` if one
exists, and otherwise appends a new entry at the end.
-/

inductive Value where
  | str : String → Value
  | bool : Bool → Value
deriving Repr, DecidableEq

abbrev FormState := List (String × Value)

def getField : FormState → String → Option Value
  | [], _ => none
  | (k, w) :: rest, n => if k = n then some w else getField rest n

def hasKey : FormState → String → Bool
  | [], _ => false
  | (k, _) :: rest, n => if k = n then true else hasKey rest n

/-- Object spread-then-overwrite: `{...fs, [n]: v}`. -/
def setKey : FormState → String → Value → FormState
  | [], n, v => [(n, v)]
  | (k, w) :: rest, n, v =>
    if k = n then (n, v) :: rest else (k, w) :: setKey rest n v

inductive InputKind where
  | text
  | checkbox
deriving Repr, DecidableEq

/-- The parts of the DOM event `handleChange` reads: `event.target.name`,
`event.target.type`, `event.target.value`, `event.target.checked`. -/
structure InputEvent where
  name : String
  inputType : InputKind
  value : String
  checked : Bool
deriving Repr, DecidableEq

/-- `let value = event.target.value; if (type === "checkbox") value = checked`. -/
def eventValue (e : InputEvent) : Value :=
  match e.inputType with
  | InputKind.checkbox => Value.bool e.checked
  | InputKind.text => Value.str e.value

def handleChange (fs : FormState) (e : InputEvent) : FormState :=
  setKey fs e.name (eventValue e)

def applyChanges : FormState → List InputEvent → FormState
  | fs, [] => fs
  | fs, e :: rest => applyChanges (handleChange fs e) rest

/-- The value of the last event in the sequence that writes key `k`,
if any event does. -/
def lastWrite : List InputEvent → String → Option Value
  | [], _ => none
  | e :: rest, k =>
    match lastWrite rest k with
    | some w => some w
    | none => if e.name = k then some (eventValue e) else none

/-- Initial state of the README final version of the component. -/
def initialFormData : FormState :=
  [("firstName", Value.str "John"), ("lastName", Value.str "Henry"),
   ("admin", Value.bool false)]

/-! ## Submission (`handleSubmit`, README)

```js
function handleSubmit(event) {
  event.preventDefault();
  const formData = { firstName: firstName, lastName: lastName };
  props.sendFormDataSomewhere(formData);
  setFirstName("");
  setLastName("");
}
```

The component state carries `firstName` and `lastName` (the fields this
handler reads and resets) together with the `admin` checkbox field of the
final version of the component, which `handleSubmit` never touches.
The observable behaviour of one call is the ordered list of effects it
performs (suppressing the default navigation, then handing the snapshot to
the external sink) plus the state it leaves behind.
-/

structure FormData where
  firstName : String
  lastName : String
  admin : Bool
deriving Repr, DecidableEq

/-- The object `{ firstName: firstName, lastName: lastName }` built at
submission time: a value copy, sharing no state with the component. -/
structure Snapshot where
  firstName : String
  lastName : String
deriving Repr, DecidableEq

def snapshotOf (s : FormData) : Snapshot :=
  { firstName := s.firstName, lastName := s.lastName }

inductive Effect where
  | preventDefault
  | send : Snapshot → Effect
deriving Repr, DecidableEq

def handleSubmit (s : FormData) : List Effect × FormData :=
  ([Effect.preventDefault, Effect.send (snapshotOf s)],
   { s with firstName := "", lastName := "" })

/-- The snapshots among a list of effects, in order. -/
def sentSnapshots (es : List Effect) : List Snapshot :=
  es.filterMap fun e =>
    match e with
    | Effect.send snap => some snap
    | Effect.preventDefault => none

inductive Action where
  | setFirst : String → Action
  | setLast : String → Action
  | setAdmin : Bool → Action
  | submit : Action
deriving Repr, DecidableEq

def applyAction (s : FormData) : Action → FormData
  | Action.setFirst v => { s with firstName := v }
  | Action.setLast v => { s with lastName := v }
  | Action.setAdmin b => { s with admin := b }
  | Action.submit => (handleSubmit s).2

def runActions (s : FormData) (as : List Action) : FormData :=
  as.foldl applyAction s

/-- All snapshots delivered to the external sink while processing a list of
actions, in order. -/
def snapshots : FormData → List Action → List Snapshot
  | _, [] => []
  | s, Action.submit :: rest =>
    sentSnapshots (handleSubmit s).1 ++ snapshots (handleSubmit s).2 rest
  | s, a :: rest => snapshots (applyAction s a) rest

/-! ## Helper lemmas -/

theorem getField_setKey_self (fs : FormState) (n : String) (v : Value) :
    getField (setKey fs n v) n = some v := by
  induction fs with
  | nil => simp [setKey, getField]
  | cons p rest ih =>
    obtain ⟨k, w⟩ := p
    by_cases h : k = n
    · simp [setKey, getField, h]
    · simp [setKey, getField, h, ih]

theorem getField_setKey_ne (fs : FormState) (n : String) (v : Value) (k : String)
    (hk : k ≠ n) : getField (setKey fs n v) k = getField fs k := by
  induction fs with
  | nil => simp [setKey, getField, Ne.symm hk]
  | cons p rest ih =>
    obtain ⟨k₀, w⟩ := p
    by_cases h : k₀ = n
    · subst h
      simp [setKey, getField, Ne.symm hk]
    · simp [setKey, getField, h, ih]

theorem keys_setKey (fs : FormState) (n : String) (v : Value)
    (h : hasKey fs n = true) :
    (setKey fs n v).map Prod.fst = fs.map Prod.fst := by
  induction fs with
  | nil => simp [hasKey] at h
  | cons p rest ih =>
    obtain ⟨k, w⟩ := p
    by_cases hkn : k = n
    · simp [setKey, hkn]
    · simp [hasKey, hkn] at h
      simp [setKey, hkn, ih h]

theorem setKey_insert (fs : FormState) (n : String) (v : Value)
    (h : hasKey fs n = false) : setKey fs n v = fs ++ [(n, v)] := by
  induction fs with
  | nil => simp [setKey]
  | cons p rest ih =>
    obtain ⟨k, w⟩ := p
    by_cases hkn : k = n
    · simp [hasKey, hkn] at h
    · simp [hasKey, hkn] at h
      simp [setKey, hkn, ih h]

theorem setKey_setKey_same (fs : FormState) (n : String) (v : Value) :
    setKey (setKey fs n v) n v = setKey fs n v := by
  induction fs with
  | nil => simp [setKey]
  | cons p rest ih =>
    obtain ⟨k, w⟩ := p
    by_cases h : k = n
    · simp [setKey, h]
    · simp [setKey, h, ih]

theorem applyChanges_lastWrite (es : List InputEvent) (fs : FormState) :
    (∀ k v, lastWrite es k = some v → getField (applyChanges fs es) k = some v) ∧
    (∀ k, lastWrite es k = none → getField (applyChanges fs es) k = getField fs k) := by
  induction es generalizing fs with
  | nil =>
    constructor
    · intro k v h
      simp [lastWrite] at h
    · intro k _
      simp [applyChanges]
  | cons e rest ih =>
    constructor
    · intro k v h
      rcases hrest : lastWrite rest k with _ | w
      · simp only [lastWrite, hrest] at h
        by_cases hn : e.name = k
        · simp only [hn, if_pos rfl] at h
          have h₂ := (ih (handleChange fs e)).2 k hrest
          rw [applyChanges, h₂, handleChange, ← hn, getField_setKey_self]
          exact h
        · simp [hn] at h
      · simp only [lastWrite, hrest] at h
        rw [applyChanges]
        exact (ih (handleChange fs e)).1 k v (hrest.trans h)
    · intro k h
      rcases hrest : lastWrite rest k with _ | w
      · simp only [lastWrite, hrest] at h
        by_cases hn : e.name = k
        · simp [hn] at h
        · have h₂ := (ih (handleChange fs e)).2 k hrest
          rw [applyChanges, h₂, handleChange, getField_setKey_ne]
          exact fun hkn => hn hkn.symm
      · simp only [lastWrite, hrest] at h
        simp at h

theorem numOK_handleNumberChange (v : String) (s : NumberState)
    (h₀ : 0 ≤ s.number) (h₅ : s.number ≤ 5) :
    0 ≤ (handleNumberChange v s).number ∧ (handleNumberChange v s).number ≤ 5 := by
  rw [handleNumberChange]
  rcases parseInt v with _ | n
  · exact ⟨h₀, h₅⟩
  · by_cases h : 0 ≤ n ∧ n ≤ 5
    · simp [h]
    · simp [h]
      exact ⟨h₀, h₅⟩

theorem numOK_runNumber_aux (vs : List String) (s : NumberState)
    (h₀ : 0 ≤ s.number) (h₅ : s.number ≤ 5) :
    0 ≤ (vs.foldl (fun s v => handleNumberChange v s) s).number ∧
      (vs.foldl (fun s v => handleNumberChange v s) s).number ≤ 5 := by
  induction vs generalizing s with
  | nil => exact ⟨h₀, h₅⟩
  | cons v rest ih =>
    have hstep := numOK_handleNumberChange v s h₀ h₅
    exact ih (handleNumberChange v s) hstep.1 hstep.2

theorem invalidMessage_ne_empty (x : Option Int) : invalidMessage x ≠ "" := by
  intro h
  have hlen := congrArg String.length h
  rw [invalidMessage, String.length_append] at hlen
  have h23 : (" is not a valid number!").length = 23 := rfl
  have h0 : ("" : String).length = 0 := rfl
  rw [h23, h0] at hlen
  omega

theorem snapshots_append (xs ys : List Action) (s : FormData) :
    snapshots s (xs ++ ys) = snapshots s xs ++ snapshots (runActions s xs) ys := by
  induction xs generalizing s with
  | nil => rfl
  | cons a rest ih =>
    cases a <;>
      (simp only [List.cons_append, snapshots, List.append_eq]
       rw [ih]
       simp [runActions, applyAction, List.append_assoc])

/-! ## Claim theorems -/

/-- C1: `updateBoundedNumber(v)` (`handleNumberChange`) is Accepted iff the
integer parsed from `v` lies in the inclusive range `[0, 5]`; when Accepted
the stored numeric value becomes exactly `parseInt(v)` and the
invalid-number message is cleared; when parsing fails the range check fails
and the call is Rejected. -/
theorem updateBoundedNumber_accept_iff (v : String) (s : NumberState) :
    (rangeCheck (parseInt v) = true ↔
      ∃ n : Int, parseInt v = some n ∧ 0 ≤ n ∧ n ≤ 5) ∧
    ((handleNumberChange v s).isInvalidNumber = none ↔
      rangeCheck (parseInt v) = true) ∧
    (∀ n : Int, parseInt v = some n → 0 ≤ n → n ≤ 5 →
      (handleNumberChange v s).number = n ∧
        (handleNumberChange v s).isInvalidNumber = none) ∧
    (parseInt v = none → (handleNumberChange v s).isInvalidNumber ≠ none) := by
  rcases hp : parseInt v with _ | n
  · refine ⟨by simp [rangeCheck], ?_, ?_, ?_⟩
    · simp [handleNumberChange, hp, rangeCheck]
    · intro n hn
      exact absurd hn (by simp)
    · intro _
      simp [handleNumberChange, hp]
  · by_cases h : 0 ≤ n ∧ n ≤ 5
    · refine ⟨?_, ?_, ?_, ?_⟩
      · simp only [rangeCheck, Bool.and_eq_true, decide_eq_true_eq]
        exact ⟨fun _ => ⟨n, rfl, h⟩, fun _ => h⟩
      · simp [handleNumberChange, hp, rangeCheck, h.1, h.2]
      · intro m hm _ _
        injection hm with hm
        subst hm
        simp [handleNumberChange, hp, h]
      · intro hnone
        exact absurd hnone (by simp)
    · refine ⟨?_, ?_, ?_, ?_⟩
      · simp only [rangeCheck, Bool.and_eq_true, decide_eq_true_eq]
        constructor
        · intro hc
          exact absurd hc h
        · rintro ⟨m, hm, hm0, hm5⟩
          injection hm with hm
          subst hm
          exact absurd ⟨hm0, hm5⟩ h
      · simp [handleNumberChange, hp, rangeCheck, h]
      · intro m hm hm0 hm5
        injection hm with hm
        subst hm
        exact absurd ⟨hm0, hm5⟩ h
      · intro hnone
        exact absurd hnone (by simp)

/-- Witness for C1: on input `"3"` from the initial state, the call is
Accepted, the stored value becomes `3` and the message is cleared. -/
theorem updateBoundedNumber_accept_iff_witness :
    (handleNumberChange "3" initialNumberState).number = 3 ∧
    (handleNumberChange "3" initialNumberState).isInvalidNumber = none :=
  (updateBoundedNumber_accept_iff "3" initialNumberState).2.2.1 3
    (by decide) (by decide) (by decide)

/-- C2: a rejected `updateBoundedNumber(v)` call leaves the numeric value
unchanged (indeed leaves the whole state unchanged except the message) and
records the non-empty message `"<parsed-value> is not a valid number!"`. -/
theorem updateBoundedNumber_rejected (v : String) (s : NumberState)
    (h : rangeCheck (parseInt v) = false) :
    handleNumberChange v s =
      { s with isInvalidNumber := some (invalidMessage (parseInt v)) } ∧
    (handleNumberChange v s).number = s.number ∧
    invalidMessage (parseInt v) ≠ "" := by
  rcases hp : parseInt v with _ | n
  · refine ⟨?_, ?_, invalidMessage_ne_empty none⟩
    · simp [handleNumberChange, hp]
    · simp [handleNumberChange, hp]
  · rw [hp] at h
    have hn : ¬(0 ≤ n ∧ n ≤ 5) := by
      simpa [rangeCheck, Decidable.not_and_iff_or_not] using h
    refine ⟨?_, ?_, invalidMessage_ne_empty (some n)⟩
    · simp [handleNumberChange, hp, hn]
    · simp [handleNumberChange, hp, hn]

/-- Witness for C2: from stored value `5`, input `"9"` is rejected, the
value stays `5`, and the message `"9 is not a valid number!"` is recorded. -/
theorem updateBoundedNumber_rejected_witness :
    handleNumberChange "9" { number := 5, isInvalidNumber := none } =
      { number := 5,
        isInvalidNumber := some (invalidMessage (parseInt "9")) } ∧
    (handleNumberChange "9" { number := 5, isInvalidNumber := none }).number = 5 ∧
    invalidMessage (parseInt "9") ≠ "" :=
  updateBoundedNumber_rejected "9" { number := 5, isInvalidNumber := none }
    (by decide)

/-- C10: when parsing fails (`parseInt` gives `NaN`), the recorded message
interpolates the parsed value, not the raw text: it is literally
`"NaN is not a valid number!"` whatever the user typed. -/
theorem nan_message (v : String) (s : NumberState) (h : parseInt v = none) :
    (handleNumberChange v s).isInvalidNumber =
      some "NaN is not a valid number!" := by
  simp [handleNumberChange, h, invalidMessage, jsNumToString]

/-- Witness for C10 at the non-numeric input `"hello"`. -/
theorem nan_message_witness :
    (handleNumberChange "hello" initialNumberState).isInvalidNumber =
      some "NaN is not a valid number!" :=
  nan_message "hello" initialNumberState (by decide)

/-- C5: the numeric field starts in `Valid(0)`; after every sequence of
input events the stored value lies in `[0, 5]`; every transition either
moves to Valid (clearing the message) or to Invalid (retaining the prior
numeric value and setting the message); the range invariant is preserved
by every transition. -/
theorem numeric_field_state_machine :
    (initialNumberState.number = 0 ∧ initialNumberState.isInvalidNumber = none) ∧
    (∀ vs : List String,
      0 ≤ (runNumber vs).number ∧ (runNumber vs).number ≤ 5) ∧
    (∀ (v : String) (s : NumberState),
      (handleNumberChange v s).isInvalidNumber = none ∨
      ((handleNumberChange v s).number = s.number ∧
        (handleNumberChange v s).isInvalidNumber =
          some (invalidMessage (parseInt v)))) ∧
    (∀ (v : String) (s : NumberState), 0 ≤ s.number → s.number ≤ 5 →
      0 ≤ (handleNumberChange v s).number ∧
        (handleNumberChange v s).number ≤ 5) := by
  refine ⟨⟨rfl, rfl⟩, ?_, ?_, numOK_handleNumberChange⟩
  · intro vs
    exact numOK_runNumber_aux vs initialNumberState (by decide) (by decide)
  · intro v s
    rcases hp : parseInt v with _ | n
    · right
      simp [handleNumberChange, hp]
    · by_cases h : 0 ≤ n ∧ n ≤ 5
      · left
        simp [handleNumberChange, hp, h]
      · right
        simp [handleNumberChange, hp, h]

/-- Witness for C5: from the valid state `5`, the rejected input `"9"`
keeps the stored value inside `[0, 5]`. -/
theorem numeric_field_state_machine_witness :
    0 ≤ (handleNumberChange "9" { number := 5, isInvalidNumber := none }).number ∧
    (handleNumberChange "9" { number := 5, isInvalidNumber := none }).number ≤ 5 :=
  numeric_field_state_machine.2.2.2 "9"
    { number := 5, isInvalidNumber := none } (by decide) (by decide)

/-- C3: for every sequence of `updateField` (`handleChange`) calls whose
field names are keys already present in the state, each written key ends up
mapped to the last value passed for it, and every key never written keeps
its initial value — no cross-talk between keys. -/
theorem updateField_sequence (fs : FormState) (es : List InputEvent)
    (h : ∀ e ∈ es, hasKey fs e.name = true) :
    (∀ k v, lastWrite es k = some v →
      getField (applyChanges fs es) k = some v) ∧
    (∀ k, lastWrite es k = none →
      getField (applyChanges fs es) k = getField fs k) :=
  applyChanges_lastWrite es fs

/-- Witness for C3 (Scenario A): writing `firstName` twice ends with the
last value, and the untouched `lastName` keeps its initial value. -/
theorem updateField_sequence_witness :
    getField (applyChanges initialFormData
        [⟨"firstName", InputKind.text, "J", false⟩,
         ⟨"firstName", InputKind.text, "Johns", false⟩]) "firstName" =
      some (Value.str "Johns") ∧
    getField (applyChanges initialFormData
        [⟨"firstName", InputKind.text, "J", false⟩,
         ⟨"firstName", InputKind.text, "Johns", false⟩]) "lastName" =
      some (Value.str "Henry") :=
  ⟨(updateField_sequence initialFormData
      [⟨"firstName", InputKind.text, "J", false⟩,
       ⟨"firstName", InputKind.text, "Johns", false⟩] (by decide)).1
      "firstName" (Value.str "Johns") (by decide),
   ((updateField_sequence initialFormData
      [⟨"firstName", InputKind.text, "J", false⟩,
       ⟨"firstName", InputKind.text, "Johns", false⟩] (by decide)).2
      "lastName" (by decide)).trans (by decide)⟩

/-- C4: a single `updateField` call on an existing key replaces exactly
that entry with the event's value, leaves every other entry's value
unchanged, and preserves the key structure. -/
theorem updateField_frame (fs : FormState) (e : InputEvent)
    (h : hasKey fs e.name = true) :
    getField (handleChange fs e) e.name = some (eventValue e) ∧
    (∀ k, k ≠ e.name → getField (handleChange fs e) k = getField fs k) ∧
    (handleChange fs e).map Prod.fst = fs.map Prod.fst :=
  ⟨getField_setKey_self fs e.name (eventValue e),
   fun _ hk => getField_setKey_ne fs e.name (eventValue e) _ hk,
   keys_setKey fs e.name (eventValue e) h⟩

/-- Witness for C4 (Scenario C): toggling the checkbox field `admin` to
`true` updates it and leaves `firstName` untouched. -/
theorem updateField_frame_witness :
    getField (handleChange initialFormData
        ⟨"admin", InputKind.checkbox, "", true⟩) "admin" =
      some (Value.bool true) ∧
    getField (handleChange initialFormData
        ⟨"admin", InputKind.checkbox, "", true⟩) "firstName" =
      some (Value.str "John") :=
  ⟨(updateField_frame initialFormData
      ⟨"admin", InputKind.checkbox, "", true⟩ (by decide)).1,
   ((updateField_frame initialFormData
      ⟨"admin", InputKind.checkbox, "", true⟩ (by decide)).2.1
      "firstName" (by decide)).trans (by decide)⟩

/-- C8: `updateField` is idempotent — applying the same change event twice
in a row yields the same FormState as applying it once. -/
theorem updateField_idempotent (fs : FormState) (e : InputEvent)
    (h : hasKey fs e.name = true) :
    handleChange (handleChange fs e) e = handleChange fs e :=
  setKey_setKey_same fs e.name (eventValue e)

/-- Witness for C8 at a concrete text change on `firstName`. -/
theorem updateField_idempotent_witness :
    handleChange (handleChange initialFormData
        ⟨"firstName", InputKind.text, "Johns", false⟩)
        ⟨"firstName", InputKind.text, "Johns", false⟩ =
      handleChange initialFormData
        ⟨"firstName", InputKind.text, "Johns", false⟩ :=
  updateField_idempotent initialFormData
    ⟨"firstName", InputKind.text, "Johns", false⟩ (by decide)

/-- C9: calling `handleChange` with a name absent from the state silently
appends a new entry for that name with the event's value (spread-then-
overwrite semantics), leaving all existing entries unchanged; it is a
total function with no failure path. -/
theorem updateField_unknown_key_inserts (fs : FormState) (e : InputEvent)
    (h : hasKey fs e.name = false) :
    handleChange fs e = fs ++ [(e.name, eventValue e)] ∧
    getField (handleChange fs e) e.name = some (eventValue e) ∧
    (∀ k, k ≠ e.name → getField (handleChange fs e) k = getField fs k) :=
  ⟨setKey_insert fs e.name (eventValue e) h,
   getField_setKey_self fs e.name (eventValue e),
   fun _ hk => getField_setKey_ne fs e.name (eventValue e) _ hk⟩

/-- Witness for C9: an event for the absent key `"email"` appends a new
entry and leaves `firstName` unchanged. -/
theorem updateField_unknown_key_inserts_witness :
    handleChange initialFormData ⟨"email", InputKind.text, "a@b", false⟩ =
      initialFormData ++ [("email", Value.str "a@b")] ∧
    getField (handleChange initialFormData
        ⟨"email", InputKind.text, "a@b", false⟩) "firstName" =
      getField initialFormData "firstName" :=
  ⟨(updateField_unknown_key_inserts initialFormData
      ⟨"email", InputKind.text, "a@b", false⟩ (by decide)).1,
   (updateField_unknown_key_inserts initialFormData
      ⟨"email", InputKind.text, "a@b", false⟩ (by decide)).2.2
      "firstName" (by decide)⟩

/-- C6: the snapshot delivered at a submission equals the form data at the
instant of submission — it is a function of the state reached by the
actions before the submit alone, and the actions after it only extend the
delivered list, never altering earlier snapshots. -/
theorem submit_snapshot_immutable (s : FormData) (as bs : List Action) :
    snapshots s (as ++ Action.submit :: bs) =
      snapshots s as ++ snapshotOf (runActions s as) ::
        snapshots (applyAction (runActions s as) Action.submit) bs := by
  rw [snapshots_append as (Action.submit :: bs) s]
  rfl

/-- C7: submitting with state `{firstName:"A", lastName:"B"}` suppresses
the default navigation first, then hands the sink exactly
`{firstName:"A", lastName:"B"}`; afterwards `firstName` and `lastName` are
reset to the empty string while `admin` is untouched. -/
theorem submit_scenario (s : FormData) (h1 : s.firstName = "A")
    (h2 : s.lastName = "B") :
    (handleSubmit s).1 =
      [Effect.preventDefault,
       Effect.send { firstName := "A", lastName := "B" }] ∧
    sentSnapshots (handleSubmit s).1 =
      [{ firstName := "A", lastName := "B" }] ∧
    (handleSubmit s).2.firstName = "" ∧
    (handleSubmit s).2.lastName = "" ∧
    (handleSubmit s).2.admin = s.admin := by
  simp [handleSubmit, snapshotOf, sentSnapshots, h1, h2]

/-- Witness for C7 at the concrete state `{firstName:"A", lastName:"B",
admin:false}`. -/
theorem submit_scenario_witness :
    (handleSubmit { firstName := "A", lastName := "B", admin := false }).1 =
      [Effect.preventDefault,
       Effect.send { firstName := "A", lastName := "B" }] ∧
    sentSnapshots
        (handleSubmit
          { firstName := "A", lastName := "B", admin := false }).1 =
      [{ firstName := "A", lastName := "B" }] ∧
    (handleSubmit
      { firstName := "A", lastName := "B", admin := false }).2.firstName = "" ∧
    (handleSubmit
      { firstName := "A", lastName := "B", admin := false }).2.lastName = "" ∧
    (handleSubmit
        { firstName := "A", lastName := "B", admin := false }).2.admin =
      ({ firstName := "A", lastName := "B", admin := false } : FormData).admin :=
  submit_scenario { firstName := "A", lastName := "B", admin := false } rfl rfl

end ReactHooksForms
